import Mathlib

/-!
Verification of the student dropout-risk scoring engine
(`src/utils/risk_calculator.py`, class `RiskCalculator`).

The Python code is shallowly embedded over exact rationals (`ℚ` in place of
IEEE floats, which only changes values by rounding noise irrelevant to the
properties below), with the input mapping modelled as an association list of
dynamically typed values, and the `try/except (ValueError, TypeError)`
blocks modelled with `Except String`.
-/

namespace RiskCalc

/-- A Python value as it can occur in the `student_data` mapping:
an `int`, a `float` (exact rational here), a `str`, or `None`. -/
inductive PyVal where
  | int (n : ℤ)
  | float (q : ℚ)
  | str (s : String)
  | none
deriving DecidableEq, Repr

/-- The `student_data` mapping (a Python dict), as an association list. -/
abbrev StudentData := List (String × PyVal)

/-- First value bound to key `k`, if any (dict lookup). -/
def lookupField (d : StudentData) (k : String) : Option PyVal :=
  match d.find? (fun p => p.1 == k) with
  | some p => some p.2
  | Option.none => Option.none

/-- `student_data.get(k, dflt)`. -/
def getField (d : StudentData) (k : String) (dflt : PyVal) : PyVal :=
  (lookupField d k).getD dflt

/-- Numeric value of a list of decimal digit characters. -/
def digitsToNat (l : List Char) : ℕ :=
  l.foldl (fun a c => 10 * a + (c.toNat - 48)) 0

/-- Decimal string parser modelling Python `float(s)` on plain decimal
literals: optional sign, then digits with an optional fractional part
(exponent forms and `inf`/`nan` are not used by this repository's data). -/
def parseFloatStr (s : String) : Option ℚ :=
  let cs := s.trim.toList
  let (sign, body) :=
    match cs with
    | '-' :: rest => ((-1 : ℚ), rest)
    | '+' :: rest => ((1 : ℚ), rest)
    | _ => ((1 : ℚ), cs)
  let ip := body.takeWhile Char.isDigit
  let rest := body.dropWhile Char.isDigit
  match rest with
  | [] =>
      if ip.isEmpty then Option.none
      else some (sign * (digitsToNat ip : ℚ))
  | '.' :: fp =>
      if fp.all Char.isDigit ∧ ¬(ip.isEmpty ∧ fp.isEmpty) then
        some (sign * ((digitsToNat ip : ℚ) + (digitsToNat fp : ℚ) / (10 : ℚ) ^ fp.length))
      else Option.none
  | _ => Option.none

/-- Integer string parser modelling Python `int(s)`:
optional sign then digits only (so `int("3.5")` fails). -/
def parseIntStr (s : String) : Option ℤ :=
  let cs := s.trim.toList
  let (sign, body) :=
    match cs with
    | '-' :: rest => ((-1 : ℤ), rest)
    | '+' :: rest => ((1 : ℤ), rest)
    | _ => ((1 : ℤ), cs)
  if body.isEmpty ∨ ¬ body.all Char.isDigit then Option.none
  else some (sign * (digitsToNat body : ℤ))

/-- Truncation toward zero, as Python `int(float)`. -/
def ratTruncate (q : ℚ) : ℤ :=
  if 0 ≤ q then ⌊q⌋ else ⌈q⌉

/-- Python `float(v)`: succeeds on numbers and numeric strings, raises
`ValueError`/`TypeError` otherwise (the message text models CPython's). -/
def pyFloat : PyVal → Except String ℚ
  | PyVal.int n => Except.ok (n : ℚ)
  | PyVal.float q => Except.ok q
  | PyVal.str s =>
      match parseFloatStr s with
      | some q => Except.ok q
      | Option.none => Except.error ("could not convert string to float: " ++ s)
  | PyVal.none => Except.error "float() argument must be a string or a real number, not NoneType"

/-- Python `int(v)`: truncates floats toward zero, parses integer strings,
raises `ValueError`/`TypeError` otherwise. -/
def pyInt : PyVal → Except String ℤ
  | PyVal.int n => Except.ok n
  | PyVal.float q => Except.ok (ratTruncate q)
  | PyVal.str s =>
      match parseIntStr s with
      | some n => Except.ok n
      | Option.none => Except.error ("invalid literal for int() with base 10: " ++ s)
  | PyVal.none => Except.error "int() argument must be a string or a real number, not NoneType"

/-- The component weights set in `RiskCalculator.__init__`. -/
structure Weights where
  attendance : ℚ
  score_trend : ℚ
  fees : ℚ
  attempts : ℚ
deriving DecidableEq, Repr

/-- The risk-level thresholds set in `RiskCalculator.__init__`. -/
structure Thresholds where
  high : ℚ
  medium : ℚ
deriving DecidableEq, Repr

/-- The calculator's configuration: the instance fields assigned once in
`RiskCalculator.__init__` (the `colors` dict is kept as its three entries). -/
structure RiskCalculator where
  weights : Weights
  thresholds : Thresholds
  colorHigh : String
  colorMedium : String
  colorLow : String
deriving DecidableEq, Repr

/-- `self.colors[level]` (the dict has exactly the three keys below). -/
def RiskCalculator.colorsGet (c : RiskCalculator) (level : String) : String :=
  if level = "High" then c.colorHigh
  else if level = "Medium" then c.colorMedium
  else c.colorLow

/-- The object built by `RiskCalculator()` — the module-level `risk_calc`
instance in `app.py`. -/
def riskCalc : RiskCalculator :=
  { weights := { attendance := 1/2, score_trend := 3/10, fees := 3/20, attempts := 1/20 }
    thresholds := { high := 7/10, medium := 2/5 }
    colorHigh := "danger"
    colorMedium := "warning"
    colorLow := "success" }

/-- `calculate_attendance_risk`: `max(0, (75 - attendance_percent) / 75)`,
with the early return `0.0` when `attendance_percent >= 75`. -/
def calculate_attendance_risk (attendance_percent : ℚ) : ℚ :=
  if attendance_percent ≥ 75 then 0
  else max 0 ((75 - attendance_percent) / 75)

/-- `calculate_score_trend_risk`: 0 when either average is the sentinel 0 or
the trend is flat/improving, else `min(max(score_drop / 100, 0), 1)`. -/
def calculate_score_trend_risk (previous_avg current_avg : ℚ) : ℚ :=
  if previous_avg = 0 ∨ current_avg = 0 then 0
  else
    let score_drop := previous_avg - current_avg
    if score_drop ≤ 0 then 0
    else min (max (score_drop / 100) 0) 1

/-- `calculate_fee_risk`: `min(fees_due_days / 90, 1.0)` (no lower clamp). -/
def calculate_fee_risk (fees_due_days : ℤ) : ℚ :=
  min ((fees_due_days : ℚ) / 90) 1

/-- `calculate_attempts_risk`: 0 when `attempts <= 1`,
else `min((attempts - 1) / 4, 1.0)`. -/
def calculate_attempts_risk (attempts : ℤ) : ℚ :=
  if attempts ≤ 1 then 0
  else min (((attempts : ℚ) - 1) / 4) 1

/-- The five fields both `calculate_risk` and `calculate_detailed_risk`
extract from `student_data`. -/
structure Extracted where
  attendance : ℚ
  fees_due : ℤ
  attempts : ℤ
  previous_avg : ℚ
  current_avg : ℚ
deriving DecidableEq, Repr

/-- The field-extraction block shared verbatim by `calculate_risk` and
`calculate_detailed_risk`: `float`/`int` conversions with defaults, in
source order, failing on the first unconvertible field. -/
def extractFields (d : StudentData) : Except String Extracted := do
  let attendance ← pyFloat (getField d "attendance_percent" (PyVal.int 0))
  let fees_due ← pyInt (getField d "fees_due_days" (PyVal.int 0))
  let attempts ← pyInt (getField d "attempts_in_subject_X" (PyVal.int 1))
  let previous_avg ← pyFloat (getField d "previous_3_tests_avg" (PyVal.int 0))
  let current_avg ← pyFloat (getField d "last_3_tests_avg" (PyVal.int 0))
  return ⟨attendance, fees_due, attempts, previous_avg, current_avg⟩

/-- The weighted overall risk score, as summed in both scoring methods. -/
def overallScore (c : RiskCalculator) (f : Extracted) : ℚ :=
  c.weights.attendance * calculate_attendance_risk f.attendance +
  c.weights.score_trend * calculate_score_trend_risk f.previous_avg f.current_avg +
  c.weights.fees * calculate_fee_risk f.fees_due +
  c.weights.attempts * calculate_attempts_risk f.attempts

/-- The `if/elif/else` ladder turning a score into a level, identical in
`calculate_risk` and `calculate_detailed_risk`. -/
def risk_level_of (c : RiskCalculator) (risk_score : ℚ) : String :=
  if risk_score ≥ c.thresholds.high then "High"
  else if risk_score ≥ c.thresholds.medium then "Medium"
  else "Low"

/-- The dict returned by `calculate_risk` (its `error` key is present only
on the exception path, modelled by `Option`). -/
structure RiskSummary where
  risk_score : ℚ
  risk_level : String
  risk_color : String
  error : Option String
deriving DecidableEq, Repr

/-- `calculate_risk`: extract fields, combine the four weighted component
risks, classify; on `ValueError`/`TypeError` return the safe default. -/
def calculate_risk (c : RiskCalculator) (d : StudentData) : RiskSummary :=
  match extractFields d with
  | Except.ok f =>
      let risk_score := overallScore c f
      let risk_level := risk_level_of c risk_score
      { risk_score := risk_score
        risk_level := risk_level
        risk_color := c.colorsGet risk_level
        error := Option.none }
  | Except.error e =>
      { risk_score := 0
        risk_level := "Low"
        risk_color := c.colorsGet "Low"
        error := some ("Data processing error: " ++ e) }

/-- Nearest integer with ties to even, as Python `round` on exact values. -/
def roundHalfEven (q : ℚ) : ℤ :=
  let f := ⌊q⌋
  if q - (f : ℚ) < 1/2 then f
  else if q - (f : ℚ) > 1/2 then f + 1
  else if f % 2 = 0 then f else f + 1

/-- Python `round(x, 3)`. -/
def round3 (q : ℚ) : ℚ :=
  (roundHalfEven (q * 1000) : ℚ) / 1000

/-- Plain rendering of a rational, standing in for Python's float→str
formatting inside f-strings (no claim depends on the digits produced). -/
def qStr (q : ℚ) : String :=
  if q.den = 1 then toString q.num
  else toString q.num ++ "/" ++ toString q.den

/-- One entry of the `risk_factors` list built by `calculate_detailed_risk`. -/
structure RiskFactor where
  factor : String
  value : String
  risk_contribution : ℚ
  severity : String
deriving DecidableEq, Repr

/-- `risk_factors.sort(key=lambda x: x['risk_contribution'], reverse=True)`
inserts one element into an already descending list, passing only strictly
larger entries — which is how Python's stable sort places it. -/
def insertFactor (x : RiskFactor) : List RiskFactor → List RiskFactor
  | [] => [x]
  | y :: ys =>
      if x.risk_contribution ≥ y.risk_contribution then x :: y :: ys
      else y :: insertFactor x ys

/-- Stable descending sort by `risk_contribution` (Python `list.sort` with
`reverse=True` is stable: ties keep their original order). -/
def sortFactors : List RiskFactor → List RiskFactor
  | [] => []
  | x :: xs => insertFactor x (sortFactors xs)

/-- The `risk_factors` list as appended in source order (attendance, score
trend, fees, attempts), each entry guarded by its component risk being
positive, before sorting. -/
def baseFactors (c : RiskCalculator) (f : Extracted) : List RiskFactor :=
  (if calculate_attendance_risk f.attendance > 0 then
    [{ factor := "Attendance"
       value := qStr f.attendance ++ "% (below 75%)"
       risk_contribution := calculate_attendance_risk f.attendance * c.weights.attendance
       severity := if f.attendance < 50 then "High"
                   else if f.attendance < 65 then "Medium" else "Low" }]
   else []) ++
  (if calculate_score_trend_risk f.previous_avg f.current_avg > 0 then
    [{ factor := "Test Score Trend"
       value := "Dropped by " ++ qStr (f.previous_avg - f.current_avg) ++ " points"
       risk_contribution :=
         calculate_score_trend_risk f.previous_avg f.current_avg * c.weights.score_trend
       severity := if f.previous_avg - f.current_avg > 15 then "High"
                   else if f.previous_avg - f.current_avg > 8 then "Medium" else "Low" }]
   else []) ++
  (if calculate_fee_risk f.fees_due > 0 then
    [{ factor := "Fee Payment"
       value := toString f.fees_due ++ " days overdue"
       risk_contribution := calculate_fee_risk f.fees_due * c.weights.fees
       severity := if f.fees_due > 90 then "High"
                   else if f.fees_due > 30 then "Medium" else "Low" }]
   else []) ++
  (if calculate_attempts_risk f.attempts > 0 then
    [{ factor := "Subject Attempts"
       value := toString f.attempts ++ " attempts"
       risk_contribution := calculate_attempts_risk f.attempts * c.weights.attempts
       severity := if f.attempts ≥ 4 then "High"
                   else if f.attempts ≥ 3 then "Medium" else "Low" }]
   else [])

/-- `generate_recommendations(student_data, risk_factors)`. It re-extracts
fields from the mapping with `float`/`int`, inside the caller's `try`
block, so it is `Except`-valued here. -/
def generate_recommendations (d : StudentData) (risk_factors : List RiskFactor) :
    Except String (List String) := do
  let primary_risks :=
    (risk_factors.filter (fun f => f.severity == "High" || f.severity == "Medium")).map
      (fun f => f.factor)
  let attendanceRecs ←
    if primary_risks.contains "Attendance" then do
      let attendance ← pyFloat (getField d "attendance_percent" (PyVal.int 0))
      pure [if attendance < 50 then
              "URGENT: Schedule immediate parent-teacher meeting and attendance counseling"
            else if attendance < 65 then
              "Schedule one-on-one attendance counseling session"
            else
              "Monitor attendance closely and provide gentle reminders"]
    else pure []
  let scoreRecs ←
    if primary_risks.contains "Test Score Trend" then do
      let prev ← pyFloat (getField d "previous_3_tests_avg" (PyVal.int 0))
      let last ← pyFloat (getField d "last_3_tests_avg" (PyVal.int 0))
      let score_drop := prev - last
      pure [if score_drop > 15 then
              "Arrange remedial classes and peer tutoring support"
            else if score_drop > 8 then
              "Provide additional study materials and practice sessions"
            else
              "Regular check-ins on study habits and academic support"]
    else pure []
  let feeRecs ←
    if primary_risks.contains "Fee Payment" then do
      let fees_due ← pyInt (getField d "fees_due_days" (PyVal.int 0))
      pure [if fees_due > 90 then
              "Connect with financial aid office for payment plan options"
            else
              "Send fee payment reminder and discuss any financial difficulties"]
    else pure []
  let attemptsRecs ←
    if primary_risks.contains "Subject Attempts" then do
      let attempts ← pyInt (getField d "attempts_in_subject_X" (PyVal.int 1))
      pure [if attempts ≥ 4 then
              "Consider alternative learning methods or course modification"
            else
              "Provide focused support for challenging subject areas"]
    else pure []
  let overall_risk := (risk_factors.filter (fun f => f.severity == "High")).length
  let escalation :=
    if overall_risk ≥ 2 then
      ["Schedule weekly mentor meetings and create comprehensive support plan"]
    else if overall_risk ≥ 1 then
      ["Bi-weekly check-ins and targeted intervention strategy"]
    else []
  return ((attendanceRecs ++ scoreRecs ++ feeRecs ++ attemptsRecs ++ escalation).take 3)

/-- The `risk_components` sub-dict of the detailed result. -/
structure RiskComponents where
  attendance_risk : ℚ
  score_trend_risk : ℚ
  fee_risk : ℚ
  attempts_risk : ℚ
deriving DecidableEq, Repr

/-- The `weighted_components` sub-dict of the detailed result. -/
structure WeightedComponents where
  attendance_weighted : ℚ
  score_trend_weighted : ℚ
  fee_weighted : ℚ
  attempts_weighted : ℚ
deriving DecidableEq, Repr

/-- The dict returned by `calculate_detailed_risk`; the two component
sub-dicts and the `error` key are present only on one of its two return
paths, modelled by `Option`. -/
structure DetailedRisk where
  risk_score : ℚ
  risk_level : String
  risk_color : String
  risk_components : Option RiskComponents
  weighted_components : Option WeightedComponents
  risk_factors : List RiskFactor
  top_reasons : List RiskFactor
  recommendations : List String
  error : Option String
deriving DecidableEq, Repr

/-- The `try`-block body of `calculate_detailed_risk`. -/
def detailed_body (c : RiskCalculator) (d : StudentData) : Except String DetailedRisk := do
  let f ← extractFields d
  let attendance_risk := calculate_attendance_risk f.attendance
  let score_risk := calculate_score_trend_risk f.previous_avg f.current_avg
  let fee_risk := calculate_fee_risk f.fees_due
  let attempts_risk := calculate_attempts_risk f.attempts
  let risk_score := overallScore c f
  let risk_level := risk_level_of c risk_score
  let risk_factors := sortFactors (baseFactors c f)
  let top_reasons := if risk_factors.length ≥ 2 then risk_factors.take 2 else risk_factors
  let recommendations ← generate_recommendations d risk_factors
  return { risk_score := round3 risk_score
           risk_level := risk_level
           risk_color := c.colorsGet risk_level
           risk_components := some
             { attendance_risk := round3 attendance_risk
               score_trend_risk := round3 score_risk
               fee_risk := round3 fee_risk
               attempts_risk := round3 attempts_risk }
           weighted_components := some
             { attendance_weighted := round3 (attendance_risk * c.weights.attendance)
               score_trend_weighted := round3 (score_risk * c.weights.score_trend)
               fee_weighted := round3 (fee_risk * c.weights.fees)
               attempts_weighted := round3 (attempts_risk * c.weights.attempts) }
           risk_factors := risk_factors
           top_reasons := top_reasons
           recommendations := recommendations
           error := Option.none }

/-- `calculate_detailed_risk`: the `try` body above, with the
`except (ValueError, TypeError)` fallback returning the safe default. -/
def calculate_detailed_risk (c : RiskCalculator) (d : StudentData) : DetailedRisk :=
  match detailed_body c d with
  | Except.ok r => r
  | Except.error e =>
      { risk_score := 0
        risk_level := "Low"
        risk_color := c.colorsGet "Low"
        risk_components := Option.none
        weighted_components := Option.none
        risk_factors := []
        top_reasons := []
        recommendations := []
        error := some ("Detailed analysis error: " ++ e) }

/-- Numeric rank of a risk level, for stating that the level is a monotone
non-decreasing step function of the score. -/
def levelRank (level : String) : ℕ :=
  if level = "High" then 2
  else if level = "Medium" then 1
  else 0

/-- State-passing translation of the method call `self.calculate_risk(d)`:
the body reads `self.weights`/`self.thresholds`/`self.colors` and contains
no assignment to `self`, so the instance it returns is the one it received. -/
def calculate_risk_run (c : RiskCalculator) (d : StudentData) :
    RiskSummary × RiskCalculator :=
  (calculate_risk c d, c)

/-- State-passing translation of `self.calculate_detailed_risk(d)`; as with
`calculate_risk_run`, the body performs no writes to `self`. -/
def calculate_detailed_risk_run (c : RiskCalculator) (d : StudentData) :
    DetailedRisk × RiskCalculator :=
  (calculate_detailed_risk c d, c)

/-- A successful extraction determines the five per-field conversions. -/
lemma extractFields_ok_parts {d : StudentData} {f : Extracted}
    (hf : extractFields d = Except.ok f) :
    pyFloat (getField d "attendance_percent" (PyVal.int 0)) = Except.ok f.attendance ∧
    pyInt (getField d "fees_due_days" (PyVal.int 0)) = Except.ok f.fees_due ∧
    pyInt (getField d "attempts_in_subject_X" (PyVal.int 1)) = Except.ok f.attempts ∧
    pyFloat (getField d "previous_3_tests_avg" (PyVal.int 0)) = Except.ok f.previous_avg ∧
    pyFloat (getField d "last_3_tests_avg" (PyVal.int 0)) = Except.ok f.current_avg := by
  unfold extractFields at hf
  simp only [bind, Except.bind, pure, Except.pure] at hf
  cases hA : pyFloat (getField d "attendance_percent" (PyVal.int 0)) <;> rw [hA] at hf
  case error e => simp at hf
  case ok a =>
  cases hF : pyInt (getField d "fees_due_days" (PyVal.int 0)) <;> rw [hF] at hf
  case error e => simp at hf
  case ok fd =>
  cases hT : pyInt (getField d "attempts_in_subject_X" (PyVal.int 1)) <;> rw [hT] at hf
  case error e => simp at hf
  case ok att =>
  cases hP : pyFloat (getField d "previous_3_tests_avg" (PyVal.int 0)) <;> rw [hP] at hf
  case error e => simp at hf
  case ok p =>
  cases hL : pyFloat (getField d "last_3_tests_avg" (PyVal.int 0)) <;> rw [hL] at hf
  case error e => simp at hf
  case ok l =>
  simp only [Except.ok.injEq] at hf
  subst hf
  exact ⟨rfl, rfl, rfl, rfl, rfl⟩

/-- When the five conversions succeed, `generate_recommendations` cannot
raise: every `float`/`int` call it makes repeats one of them. -/
lemma generate_recommendations_ok {d : StudentData} {a p l : ℚ} {fd att : ℤ}
    (hA : pyFloat (getField d "attendance_percent" (PyVal.int 0)) = Except.ok a)
    (hP : pyFloat (getField d "previous_3_tests_avg" (PyVal.int 0)) = Except.ok p)
    (hL : pyFloat (getField d "last_3_tests_avg" (PyVal.int 0)) = Except.ok l)
    (hF : pyInt (getField d "fees_due_days" (PyVal.int 0)) = Except.ok fd)
    (hT : pyInt (getField d "attempts_in_subject_X" (PyVal.int 1)) = Except.ok att)
    (rf : List RiskFactor) :
    ∃ recs, generate_recommendations d rf = Except.ok recs := by
  unfold generate_recommendations
  simp only [bind, Except.bind, pure, Except.pure, hA, hP, hL, hF, hT]
  by_cases hc1 : "Attendance" ∈ (rf.filter
      (fun f => f.severity == "High" || f.severity == "Medium")).map (fun f => f.factor) <;>
  by_cases hc2 : "Test Score Trend" ∈ (rf.filter
      (fun f => f.severity == "High" || f.severity == "Medium")).map (fun f => f.factor) <;>
  by_cases hc3 : "Fee Payment" ∈ (rf.filter
      (fun f => f.severity == "High" || f.severity == "Medium")).map (fun f => f.factor) <;>
  by_cases hc4 : "Subject Attempts" ∈ (rf.filter
      (fun f => f.severity == "High" || f.severity == "Medium")).map (fun f => f.factor) <;>
  simp [hc1, hc2, hc3, hc4]

/-- The summary returned by `calculate_risk` on the success path. -/
lemma calculate_risk_ok {d : StudentData} {f : Extracted} (c : RiskCalculator)
    (hf : extractFields d = Except.ok f) :
    calculate_risk c d =
      { risk_score := overallScore c f
        risk_level := risk_level_of c (overallScore c f)
        risk_color := c.colorsGet (risk_level_of c (overallScore c f))
        error := Option.none } := by
  simp [calculate_risk, hf, overallScore, risk_level_of]

/-- The assessment returned by `calculate_detailed_risk` on the success path. -/
lemma calculate_detailed_risk_ok {d : StudentData} {f : Extracted} (c : RiskCalculator)
    (hf : extractFields d = Except.ok f) :
    ∃ recs, generate_recommendations d (sortFactors (baseFactors c f)) = Except.ok recs ∧
      calculate_detailed_risk c d =
        { risk_score := round3 (overallScore c f)
          risk_level := risk_level_of c (overallScore c f)
          risk_color := c.colorsGet (risk_level_of c (overallScore c f))
          risk_components := some
            { attendance_risk := round3 (calculate_attendance_risk f.attendance)
              score_trend_risk := round3 (calculate_score_trend_risk f.previous_avg f.current_avg)
              fee_risk := round3 (calculate_fee_risk f.fees_due)
              attempts_risk := round3 (calculate_attempts_risk f.attempts) }
          weighted_components := some
            { attendance_weighted :=
                round3 (calculate_attendance_risk f.attendance * c.weights.attendance)
              score_trend_weighted :=
                round3 (calculate_score_trend_risk f.previous_avg f.current_avg *
                  c.weights.score_trend)
              fee_weighted := round3 (calculate_fee_risk f.fees_due * c.weights.fees)
              attempts_weighted :=
                round3 (calculate_attempts_risk f.attempts * c.weights.attempts) }
          risk_factors := sortFactors (baseFactors c f)
          top_reasons :=
            if (sortFactors (baseFactors c f)).length ≥ 2 then
              (sortFactors (baseFactors c f)).take 2
            else sortFactors (baseFactors c f)
          recommendations := recs
          error := Option.none } := by
  obtain ⟨hA, hF, hT, hP, hL⟩ := extractFields_ok_parts hf
  obtain ⟨recs, hg⟩ := generate_recommendations_ok hA hP hL hF hT (sortFactors (baseFactors c f))
  refine ⟨recs, hg, ?_⟩
  simp [calculate_detailed_risk, detailed_body, hf, hg, bind, Except.bind, pure, Except.pure]

/-- When no factor reaches Medium or High severity, no per-factor rule
fires and no escalation sentence is appended. -/
lemma generate_recommendations_all_low {d : StudentData} {rf : List RiskFactor}
    (h : ∀ x ∈ rf, x.severity = "Low") :
    generate_recommendations d rf = Except.ok [] := by
  have hfilter : rf.filter (fun f => f.severity == "High" || f.severity == "Medium") = [] := by
    rw [List.filter_eq_nil_iff]
    intro x hx
    simp [h x hx]
  have hhigh : rf.filter (fun f => f.severity == "High") = [] := by
    rw [List.filter_eq_nil_iff]
    intro x hx
    simp [h x hx]
  unfold generate_recommendations
  simp [hfilter, hhigh, bind, Except.bind, pure, Except.pure]

/-- Inserting into the sorted remainder keeps it a permutation. -/
lemma insertFactor_perm (x : RiskFactor) (l : List RiskFactor) :
    (insertFactor x l).Perm (x :: l) := by
  induction l with
  | nil => simp [insertFactor]
  | cons y ys ih =>
      unfold insertFactor
      split
      · exact List.Perm.refl _
      · exact (ih.cons y).trans (List.Perm.swap x y ys)

/-- The sorted factor list is a permutation of the built list. -/
lemma sortFactors_perm (l : List RiskFactor) : (sortFactors l).Perm l := by
  induction l with
  | nil => exact List.Perm.refl _
  | cons x xs ih => exact (insertFactor_perm x (sortFactors xs)).trans (ih.cons x)

/-- Insertion preserves the descending-by-contribution invariant. -/
lemma insertFactor_pairwise {x : RiskFactor} {l : List RiskFactor}
    (h : l.Pairwise (fun a b => b.risk_contribution ≤ a.risk_contribution)) :
    (insertFactor x l).Pairwise (fun a b => b.risk_contribution ≤ a.risk_contribution) := by
  induction l with
  | nil => simp [insertFactor]
  | cons y ys ih =>
      rcases h with _ | ⟨h₁, h₂⟩
      unfold insertFactor
      split
      case isTrue hxy =>
        refine List.Pairwise.cons ?_ (List.Pairwise.cons h₁ h₂)
        intro b hb
        rcases List.mem_cons.mp hb with rfl | hb'
        · exact hxy
        · exact le_trans (h₁ _ hb') hxy
      case isFalse hxy =>
        refine List.Pairwise.cons ?_ (ih h₂)
        intro b hb
        rcases List.mem_cons.mp ((insertFactor_perm x ys).mem_iff.mp hb) with rfl | hb'
        · exact le_of_lt (lt_of_not_ge hxy)
        · exact h₁ _ hb'

/-- The sorted factor list is descending in `risk_contribution`. -/
lemma sortFactors_pairwise (l : List RiskFactor) :
    (sortFactors l).Pairwise (fun a b => b.risk_contribution ≤ a.risk_contribution) := by
  induction l with
  | nil => simp [sortFactors]
  | cons x xs ih => exact insertFactor_pairwise ih

/-- Insertion passes only strictly larger entries, so the sub-list at any
fixed contribution value is untouched — the stability half of Python's
`list.sort`. -/
lemma insertFactor_filter (x : RiskFactor) (l : List RiskFactor) (q : ℚ) :
    (insertFactor x l).filter (fun z => decide (z.risk_contribution = q)) =
      (x :: l).filter (fun z => decide (z.risk_contribution = q)) := by
  induction l with
  | nil => rfl
  | cons y ys ih =>
      unfold insertFactor
      split
      case isTrue hxy => rfl
      case isFalse hxy =>
        by_cases hx : x.risk_contribution = q <;> by_cases hy : y.risk_contribution = q
        · exact absurd (le_of_eq (hy.trans hx.symm)) hxy
        · simp [List.filter_cons, hx, hy, ih]
        · simp [List.filter_cons, hx, hy, ih]
        · simp [List.filter_cons, hx, hy, ih]

/-- Stability of the sort: ties keep their original relative order. -/
lemma sortFactors_filter (l : List RiskFactor) (q : ℚ) :
    (sortFactors l).filter (fun z => decide (z.risk_contribution = q)) =
      l.filter (fun z => decide (z.risk_contribution = q)) := by
  induction l with
  | nil => rfl
  | cons x xs ih =>
      calc (insertFactor x (sortFactors xs)).filter (fun z => decide (z.risk_contribution = q))
          = (x :: sortFactors xs).filter (fun z => decide (z.risk_contribution = q)) :=
            insertFactor_filter x (sortFactors xs) q
        _ = (x :: xs).filter (fun z => decide (z.risk_contribution = q)) := by
            simp [List.filter_cons, ih]

/-- The attendance component is never negative. -/
lemma attendance_risk_nonneg (a : ℚ) : 0 ≤ calculate_attendance_risk a := by
  unfold calculate_attendance_risk
  split
  · exact le_refl 0
  · exact le_max_left 0 _

/-- With attendance at least 0 the attendance component is at most 1. -/
lemma attendance_risk_le_one {a : ℚ} (h : 0 ≤ a) : calculate_attendance_risk a ≤ 1 := by
  unfold calculate_attendance_risk
  split
  · norm_num
  · refine max_le (by norm_num) ?_
    rw [div_le_one (by norm_num)]
    linarith

/-- The score-trend component is never negative. -/
lemma score_trend_risk_nonneg (p l : ℚ) : 0 ≤ calculate_score_trend_risk p l := by
  unfold calculate_score_trend_risk
  split
  · exact le_refl 0
  · dsimp only
    split
    · exact le_refl 0
    · exact le_min (le_max_right _ 0) (by norm_num)

/-- The score-trend component is at most 1. -/
lemma score_trend_risk_le_one (p l : ℚ) : calculate_score_trend_risk p l ≤ 1 := by
  unfold calculate_score_trend_risk
  split
  · norm_num
  · dsimp only
    split
    · norm_num
    · exact min_le_right _ 1

/-- With a non-negative day count the fee component is non-negative. -/
lemma fee_risk_nonneg {n : ℤ} (h : 0 ≤ n) : 0 ≤ calculate_fee_risk n := by
  unfold calculate_fee_risk
  exact le_min (div_nonneg (by exact_mod_cast h) (by norm_num)) (by norm_num)

/-- The fee component is capped at 1. -/
lemma fee_risk_le_one (n : ℤ) : calculate_fee_risk n ≤ 1 := min_le_right _ 1

/-- The attempts component is never negative. -/
lemma attempts_risk_nonneg (n : ℤ) : 0 ≤ calculate_attempts_risk n := by
  unfold calculate_attempts_risk
  split
  · exact le_refl 0
  case isFalse h =>
    have h2 : (2 : ℚ) ≤ (n : ℚ) := by exact_mod_cast Int.add_one_le_iff.mpr (lt_of_not_ge h)
    exact le_min (div_nonneg (by linarith) (by norm_num)) (by norm_num)

/-- The attempts component is capped at 1. -/
lemma attempts_risk_le_one (n : ℤ) : calculate_attempts_risk n ≤ 1 := by
  unfold calculate_attempts_risk
  split
  · norm_num
  · exact min_le_right _ 1

/-- The level ladder classifies as High exactly at or above 0.70. -/
lemma risk_level_of_high_iff (s : ℚ) : risk_level_of riskCalc s = "High" ↔ 7/10 ≤ s := by
  unfold risk_level_of riskCalc
  split_ifs with h1 h2 <;> simp_all +decide

/-- The level ladder classifies as Medium exactly on [0.40, 0.70). -/
lemma risk_level_of_medium_iff (s : ℚ) :
    risk_level_of riskCalc s = "Medium" ↔ 2/5 ≤ s ∧ s < 7/10 := by
  unfold risk_level_of riskCalc
  split_ifs with h1 h2 <;> simp_all +decide

/-- The level ladder classifies as Low exactly below 0.40. -/
lemma risk_level_of_low_iff (s : ℚ) : risk_level_of riskCalc s = "Low" ↔ s < 2/5 := by
  unfold risk_level_of riskCalc
  split_ifs with h1 h2 <;> simp_all +decide <;> linarith

/-- The level ladder is monotone non-decreasing in the score. -/
lemma risk_level_of_mono {q q' : ℚ} (h : q ≤ q') :
    levelRank (risk_level_of riskCalc q) ≤ levelRank (risk_level_of riskCalc q') := by
  unfold risk_level_of riskCalc levelRank
  split_ifs <;> simp_all +decide <;> linarith

/-- C9: `calculate_risk` and `calculate_detailed_risk` are deterministic pure
functions of the input mapping: in the state-passing translation, a call
returns the calculator's configuration unchanged, and a second call on the
returned configuration with the same input yields an identical result. -/
theorem scoring_is_pure_and_deterministic (c : RiskCalculator) (d : StudentData) :
    (calculate_risk_run c d).2 = c ∧
    (calculate_risk_run ((calculate_risk_run c d).2) d).1 = (calculate_risk_run c d).1 ∧
    (calculate_detailed_risk_run c d).2 = c ∧
    (calculate_detailed_risk_run ((calculate_detailed_risk_run c d).2) d).1 =
      (calculate_detailed_risk_run c d).1 := by
  exact ⟨rfl, rfl, rfl, rfl⟩

/-- C2: on a valid record — attendance in [0,100], a non-negative fee day
count, at least one attempt — each of the four component risks lies in
[0,1] and the weighted `risk_score` returned by `calculate_risk` lies in
[0,1]. -/
theorem component_and_overall_risk_bounds (d : StudentData) (f : Extracted)
    (hf : extractFields d = Except.ok f)
    (h0 : 0 ≤ f.attendance) (h100 : f.attendance ≤ 100)
    (hfd : 0 ≤ f.fees_due) (hat : 1 ≤ f.attempts) :
    (0 ≤ calculate_attendance_risk f.attendance ∧ calculate_attendance_risk f.attendance ≤ 1) ∧
    (0 ≤ calculate_score_trend_risk f.previous_avg f.current_avg ∧
      calculate_score_trend_risk f.previous_avg f.current_avg ≤ 1) ∧
    (0 ≤ calculate_fee_risk f.fees_due ∧ calculate_fee_risk f.fees_due ≤ 1) ∧
    (0 ≤ calculate_attempts_risk f.attempts ∧ calculate_attempts_risk f.attempts ≤ 1) ∧
    (0 ≤ (calculate_risk riskCalc d).risk_score ∧ (calculate_risk riskCalc d).risk_score ≤ 1) := by
  have hA0 := attendance_risk_nonneg f.attendance
  have hA1 := attendance_risk_le_one h0
  have hS0 := score_trend_risk_nonneg f.previous_avg f.current_avg
  have hS1 := score_trend_risk_le_one f.previous_avg f.current_avg
  have hF0 := fee_risk_nonneg hfd
  have hF1 := fee_risk_le_one f.fees_due
  have hT0 := attempts_risk_nonneg f.attempts
  have hT1 := attempts_risk_le_one f.attempts
  refine ⟨⟨hA0, hA1⟩, ⟨hS0, hS1⟩, ⟨hF0, hF1⟩, ⟨hT0, hT1⟩, ?_⟩
  rw [calculate_risk_ok riskCalc hf]
  dsimp only
  unfold overallScore
  simp only [riskCalc]
  constructor <;> linarith

/-- C2 witness: the bounds hold at the spec's end-to-end example record. -/
theorem component_and_overall_risk_bounds_witness :
    0 ≤ (calculate_risk riskCalc
      [("attendance_percent", PyVal.int 40), ("fees_due_days", PyVal.int 100),
       ("attempts_in_subject_X", PyVal.int 5), ("previous_3_tests_avg", PyVal.int 80),
       ("last_3_tests_avg", PyVal.int 55)]).risk_score ∧
    (calculate_risk riskCalc
      [("attendance_percent", PyVal.int 40), ("fees_due_days", PyVal.int 100),
       ("attempts_in_subject_X", PyVal.int 5), ("previous_3_tests_avg", PyVal.int 80),
       ("last_3_tests_avg", PyVal.int 55)]).risk_score ≤ 1 :=
  (component_and_overall_risk_bounds
    [("attendance_percent", PyVal.int 40), ("fees_due_days", PyVal.int 100),
     ("attempts_in_subject_X", PyVal.int 5), ("previous_3_tests_avg", PyVal.int 80),
     ("last_3_tests_avg", PyVal.int 55)]
    ⟨40, 100, 5, 80, 55⟩
    (by norm_num +decide [extractFields, getField, lookupField, pyFloat, pyInt, bind,
      Except.bind, pure, Except.pure])
    (by norm_num) (by norm_num) (by norm_num) (by norm_num)).2.2.2.2

/-- C3: when a field conversion fails, `calculate_risk` returns exactly the
safe default — zero score, Low level, success color — with a non-empty
error string, and `calculate_detailed_risk` returns the zeroed assessment
with an error annotation and empty factor, reason and recommendation
lists. -/
theorem malformed_input_fail_safe (d : StudentData) (e : String)
    (hf : extractFields d = Except.error e) :
    calculate_risk riskCalc d =
      { risk_score := 0, risk_level := "Low", risk_color := "success",
        error := some ("Data processing error: " ++ e) } ∧
    ("Data processing error: " ++ e) ≠ "" ∧
    calculate_detailed_risk riskCalc d =
      { risk_score := 0, risk_level := "Low", risk_color := "success",
        risk_components := Option.none, weighted_components := Option.none,
        risk_factors := [], top_reasons := [], recommendations := [],
        error := some ("Detailed analysis error: " ++ e) } ∧
    ("Detailed analysis error: " ++ e) ≠ "" := by
  refine ⟨?_, ?_, ?_, ?_⟩
  · simp +decide [calculate_risk, hf, riskCalc, RiskCalculator.colorsGet]
  · intro h
    have := congrArg String.length h
    simp [String.length_append] at this
    exact absurd this.1 (by decide)
  · simp +decide [calculate_detailed_risk, detailed_body, hf, bind, Except.bind, riskCalc,
      RiskCalculator.colorsGet]
  · intro h
    have := congrArg String.length h
    simp [String.length_append] at this
    exact absurd this.1 (by decide)

/-- C3 witness: a `None` attendance value (a `TypeError` for `float`)
triggers the fail-safe path. -/
theorem malformed_input_fail_safe_witness :
    calculate_risk riskCalc [("attendance_percent", PyVal.none)] =
      { risk_score := 0, risk_level := "Low", risk_color := "success",
        error := some ("Data processing error: " ++
          "float() argument must be a string or a real number, not NoneType") } :=
  (malformed_input_fail_safe [("attendance_percent", PyVal.none)]
    "float() argument must be a string or a real number, not NoneType"
    (by simp +decide [extractFields, getField, lookupField, pyFloat, bind, Except.bind])).1

/-- C5 counterexample: at `fees_due_days = -90` the fee component is `-1`,
not the clamp value `0` — the code has no lower clamp, so the claim's
`clamp(fees_due_days/90, 0, 1)` and "never negative" fail on negative
inputs. -/
theorem fee_risk_negative_input_counterexample :
    calculate_fee_risk (-90) = -1 ∧
    min (max (((-90 : ℤ) : ℚ) / 90) 0) 1 = 0 ∧
    calculate_fee_risk (-90) ≠ min (max (((-90 : ℤ) : ℚ) / 90) 0) 1 ∧
    calculate_fee_risk (-90) < 0 := by
  norm_num [calculate_fee_risk]

/-- C5 amended: `calculate_fee_risk` is `min(fees_due_days/90, 1)` with no
lower clamp; it agrees with `clamp(fees_due_days/90, 0, 1)` only for
non-negative day counts, and takes the values 1 at 90 days and 0.5 at 45
days. -/
theorem fee_risk_formula
    (n : ℤ) (hn : 0 ≤ n) :
    calculate_fee_risk n = min ((n : ℚ) / 90) 1 ∧
    calculate_fee_risk n = min (max ((n : ℚ) / 90) 0) 1 ∧
    calculate_fee_risk 90 = 1 ∧
    calculate_fee_risk 45 = 1/2 := by
  refine ⟨rfl, ?_, by norm_num [calculate_fee_risk], by norm_num [calculate_fee_risk]⟩
  unfold calculate_fee_risk
  rw [max_eq_left (div_nonneg (by exact_mod_cast hn) (by norm_num))]

/-- C5 witness: the amended formula evaluated at 45 days. -/
theorem fee_risk_formula_witness :
    calculate_fee_risk 45 = min (max (((45 : ℤ) : ℚ) / 90) 0) 1 :=
  (fee_risk_formula 45 (by norm_num)).2.1

/-- C7: the risk level is the inclusive step function of the score —
High iff score ≥ 0.70, Medium iff 0.40 ≤ score < 0.70, Low iff
score < 0.40 — it is monotone non-decreasing in the score, and the color
is the fixed map High→danger, Medium→warning, Low→success applied to the
level. -/
theorem risk_level_step_function_and_colors (d : StudentData) :
    ((calculate_risk riskCalc d).risk_level = "High" ↔
      7/10 ≤ (calculate_risk riskCalc d).risk_score) ∧
    ((calculate_risk riskCalc d).risk_level = "Medium" ↔
      2/5 ≤ (calculate_risk riskCalc d).risk_score ∧
        (calculate_risk riskCalc d).risk_score < 7/10) ∧
    ((calculate_risk riskCalc d).risk_level = "Low" ↔
      (calculate_risk riskCalc d).risk_score < 2/5) ∧
    (calculate_risk riskCalc d).risk_level =
      risk_level_of riskCalc (calculate_risk riskCalc d).risk_score ∧
    (calculate_risk riskCalc d).risk_color =
      riskCalc.colorsGet (calculate_risk riskCalc d).risk_level ∧
    riskCalc.colorsGet "High" = "danger" ∧
    riskCalc.colorsGet "Medium" = "warning" ∧
    riskCalc.colorsGet "Low" = "success" ∧
    (∀ q q' : ℚ, q ≤ q' →
      levelRank (risk_level_of riskCalc q) ≤ levelRank (risk_level_of riskCalc q')) := by
  have hcolors : riskCalc.colorsGet "High" = "danger" ∧
      riskCalc.colorsGet "Medium" = "warning" ∧
      riskCalc.colorsGet "Low" = "success" := by
    refine ⟨?_, ?_, ?_⟩ <;> simp +decide [riskCalc, RiskCalculator.colorsGet]
  cases hE : extractFields d with
  | ok f =>
      rw [calculate_risk_ok riskCalc hE]
      refine ⟨risk_level_of_high_iff _, risk_level_of_medium_iff _, risk_level_of_low_iff _,
        rfl, rfl, hcolors.1, hcolors.2.1, hcolors.2.2, fun q q' h => risk_level_of_mono h⟩
  | error e =>
      have hrw : calculate_risk riskCalc d =
          { risk_score := 0, risk_level := "Low", risk_color := riskCalc.colorsGet "Low",
            error := some ("Data processing error: " ++ e) } := by
        simp [calculate_risk, hE]
      rw [hrw]
      refine ⟨by norm_num +decide, by norm_num +decide, by norm_num +decide, ?_, rfl,
        hcolors.1, hcolors.2.1, hcolors.2.2, fun q q' h => risk_level_of_mono h⟩
      norm_num [risk_level_of, riskCalc]

/-- C7 witness: monotonicity instantiated at scores 1/2 ≤ 3/4. -/
theorem risk_level_step_function_and_colors_witness :
    levelRank (risk_level_of riskCalc (1/2)) ≤ levelRank (risk_level_of riskCalc (3/4)) :=
  (risk_level_step_function_and_colors []).2.2.2.2.2.2.2.2 (1/2) (3/4) (by norm_num)

/-- C10: absent fields default to attendance 0, fees 0, attempts 1 and test
averages 0, so a record with no fields at all parses successfully (no
error annotation) and scores attendance risk 1, all other components 0,
overall 0.5 — surfaced as Medium risk, not the Low fail-safe. -/
theorem missing_fields_default_to_medium (d : StudentData)
    (h1 : lookupField d "attendance_percent" = Option.none)
    (h2 : lookupField d "fees_due_days" = Option.none)
    (h3 : lookupField d "attempts_in_subject_X" = Option.none)
    (h4 : lookupField d "previous_3_tests_avg" = Option.none)
    (h5 : lookupField d "last_3_tests_avg" = Option.none) :
    extractFields d = Except.ok ⟨0, 0, 1, 0, 0⟩ ∧
    calculate_attendance_risk 0 = 1 ∧
    calculate_score_trend_risk 0 0 = 0 ∧
    calculate_fee_risk 0 = 0 ∧
    calculate_attempts_risk 1 = 0 ∧
    calculate_risk riskCalc d =
      { risk_score := 1/2, risk_level := "Medium", risk_color := "warning",
        error := Option.none } := by
  have hf : extractFields d = Except.ok ⟨0, 0, 1, 0, 0⟩ := by
    simp [extractFields, getField, h1, h2, h3, h4, h5, pyFloat, pyInt, bind, Except.bind,
      pure, Except.pure]
  refine ⟨hf, by norm_num [calculate_attendance_risk],
    by norm_num [calculate_score_trend_risk], by norm_num [calculate_fee_risk],
    by norm_num [calculate_attempts_risk], ?_⟩
  rw [calculate_risk_ok riskCalc hf]
  norm_num +decide [overallScore, risk_level_of, riskCalc, RiskCalculator.colorsGet,
    calculate_attendance_risk, calculate_score_trend_risk, calculate_fee_risk,
    calculate_attempts_risk]

/-- C10 witness: the empty mapping scores 0.5 and Medium. -/
theorem missing_fields_default_to_medium_witness :
    calculate_risk riskCalc [] =
      { risk_score := 1/2, risk_level := "Medium", risk_color := "warning",
        error := Option.none } :=
  (missing_fields_default_to_medium [] rfl rfl rfl rfl rfl).2.2.2.2.2

/-- Membership in a conditionally-present singleton block of `risk_factors`. -/
lemma mem_ite_singleton {α : Type} {a b : α} {c : Prop} [Decidable c] :
    (a ∈ if c then [b] else []) ↔ c ∧ a = b := by
  split <;> simp_all

/-- The factor names present, by component, before sorting. -/
lemma baseFactors_names (c : RiskCalculator) (f : Extracted) :
    (baseFactors c f).map (fun x => x.factor) =
      (if calculate_attendance_risk f.attendance > 0 then ["Attendance"] else []) ++
      (if calculate_score_trend_risk f.previous_avg f.current_avg > 0 then
        ["Test Score Trend"] else []) ++
      (if calculate_fee_risk f.fees_due > 0 then ["Fee Payment"] else []) ++
      (if calculate_attempts_risk f.attempts > 0 then ["Subject Attempts"] else []) := by
  unfold baseFactors
  simp only [List.map_append, apply_ite (List.map (fun x : RiskFactor => x.factor)),
    List.map_cons, List.map_nil]

/-- The contributions recorded per factor are the raw weighted products. -/
lemma baseFactors_contributions (c : RiskCalculator) (f : Extracted) :
    (baseFactors c f).map (fun x => x.risk_contribution) =
      (if calculate_attendance_risk f.attendance > 0 then
        [calculate_attendance_risk f.attendance * c.weights.attendance] else []) ++
      (if calculate_score_trend_risk f.previous_avg f.current_avg > 0 then
        [calculate_score_trend_risk f.previous_avg f.current_avg * c.weights.score_trend]
       else []) ++
      (if calculate_fee_risk f.fees_due > 0 then
        [calculate_fee_risk f.fees_due * c.weights.fees] else []) ++
      (if calculate_attempts_risk f.attempts > 0 then
        [calculate_attempts_risk f.attempts * c.weights.attempts] else []) := by
  unfold baseFactors
  simp only [List.map_append, apply_ite (List.map (fun x : RiskFactor => x.risk_contribution)),
    List.map_cons, List.map_nil]

/-- The severity tag recorded per factor, by component. -/
lemma baseFactors_severities (c : RiskCalculator) (f : Extracted) :
    (baseFactors c f).map (fun x => x.severity) =
      (if calculate_attendance_risk f.attendance > 0 then
        [if f.attendance < 50 then "High" else if f.attendance < 65 then "Medium" else "Low"]
       else []) ++
      (if calculate_score_trend_risk f.previous_avg f.current_avg > 0 then
        [if f.previous_avg - f.current_avg > 15 then "High"
         else if f.previous_avg - f.current_avg > 8 then "Medium" else "Low"]
       else []) ++
      (if calculate_fee_risk f.fees_due > 0 then
        [if f.fees_due > 90 then "High" else if f.fees_due > 30 then "Medium" else "Low"]
       else []) ++
      (if calculate_attempts_risk f.attempts > 0 then
        [if f.attempts ≥ 4 then "High" else if f.attempts ≥ 3 then "Medium" else "Low"]
       else []) := by
  unfold baseFactors
  simp only [List.map_append, apply_ite (List.map (fun x : RiskFactor => x.severity)),
    List.map_cons, List.map_nil]


/-- Evaluation rule for `roundHalfEven` below the half-way point. -/
lemma roundHalfEven_eq_down {q : ℚ} {n : ℤ} (h1 : (n : ℚ) ≤ q) (h2 : q < n + 1)
    (h3 : q - n < 1/2) : roundHalfEven q = n := by
  have hf : ⌊q⌋ = n := by
    rw [Int.floor_eq_iff]
    exact ⟨h1, by exact_mod_cast h2⟩
  unfold roundHalfEven
  rw [hf, if_pos h3]

/-- Rounding fixes zero. -/
lemma round3_zero : round3 0 = 0 := by
  unfold round3
  rw [roundHalfEven_eq_down (n := 0) (by norm_num) (by norm_num) (by norm_num)]
  norm_num

/-- The value 7/30 rounds to 0.233 at three decimals. -/
lemma round3_7_30 : round3 (7/30) = 233/1000 := by
  unfold round3
  rw [roundHalfEven_eq_down (n := 233) (by norm_num) (by norm_num) (by norm_num)]
  norm_num

/-- Extraction of the record having only `attendance_percent = 40`. -/
lemma extract_d40 :
    extractFields [("attendance_percent", PyVal.int 40)] = Except.ok ⟨40, 0, 1, 0, 0⟩ := by
  simp +decide [extractFields, getField, lookupField, pyFloat, pyInt, bind, Except.bind,
    pure, Except.pure]

/-- C1 amended: `calculate_detailed_risk` and `calculate_risk` always agree
on `risk_level` and `risk_color`, and the detailed `risk_score` is the
summary `risk_score` rounded to 3 decimals — not equal to it verbatim,
because only the detailed method rounds. -/
theorem explain_and_score_agree_up_to_rounding (c : RiskCalculator) (d : StudentData) :
    (calculate_detailed_risk c d).risk_level = (calculate_risk c d).risk_level ∧
    (calculate_detailed_risk c d).risk_color = (calculate_risk c d).risk_color ∧
    (calculate_detailed_risk c d).risk_score = round3 (calculate_risk c d).risk_score := by
  cases hE : extractFields d with
  | ok f =>
      obtain ⟨recs, hg, heq⟩ := calculate_detailed_risk_ok c hE
      rw [heq, calculate_risk_ok c hE]
      exact ⟨rfl, rfl, rfl⟩
  | error e =>
      have h1 : calculate_risk c d =
          { risk_score := 0, risk_level := "Low", risk_color := c.colorsGet "Low",
            error := some ("Data processing error: " ++ e) } := by
        simp [calculate_risk, hE]
      have h2 : calculate_detailed_risk c d =
          { risk_score := 0, risk_level := "Low", risk_color := c.colorsGet "Low",
            risk_components := Option.none, weighted_components := Option.none,
            risk_factors := [], top_reasons := [], recommendations := [],
            error := some ("Detailed analysis error: " ++ e) } := by
        simp [calculate_detailed_risk, detailed_body, hE, bind, Except.bind]
      rw [h1, h2]
      exact ⟨rfl, rfl, round3_zero.symm⟩

/-- C1 counterexample: at attendance 40 the summary score is 7/30 while the
detailed score is the rounded 0.233, so the two `risk_score` fields are
not equal as the claim states. -/
theorem explain_score_rounding_mismatch :
    (calculate_risk riskCalc [("attendance_percent", PyVal.int 40)]).risk_score = 7/30 ∧
    (calculate_detailed_risk riskCalc [("attendance_percent", PyVal.int 40)]).risk_score =
      233/1000 ∧
    (calculate_detailed_risk riskCalc [("attendance_percent", PyVal.int 40)]).risk_score ≠
      (calculate_risk riskCalc [("attendance_percent", PyVal.int 40)]).risk_score := by
  have hsum : overallScore riskCalc ⟨40, 0, 1, 0, 0⟩ = 7/30 := by
    norm_num [overallScore, riskCalc, calculate_attendance_risk, calculate_score_trend_risk,
      calculate_fee_risk, calculate_attempts_risk]
  obtain ⟨recs, hg, heq⟩ := calculate_detailed_risk_ok riskCalc extract_d40
  rw [calculate_risk_ok riskCalc extract_d40, heq]
  dsimp only
  rw [hsum, round3_7_30]
  norm_num


/-- C4 amended: in a successful detailed assessment, `risk_score` and every
entry of `risk_components` and `weighted_components` are rounded to 3
decimals, but the `risk_contribution` recorded in `risk_factors` (and
hence in `top_reasons`, a sub-list of it) is the raw unrounded weighted
product. -/
theorem detailed_outputs_rounding (d : StudentData) (f : Extracted)
    (hf : extractFields d = Except.ok f) :
    (calculate_detailed_risk riskCalc d).risk_score = round3 (overallScore riskCalc f) ∧
    (calculate_detailed_risk riskCalc d).risk_components = some
      { attendance_risk := round3 (calculate_attendance_risk f.attendance)
        score_trend_risk := round3 (calculate_score_trend_risk f.previous_avg f.current_avg)
        fee_risk := round3 (calculate_fee_risk f.fees_due)
        attempts_risk := round3 (calculate_attempts_risk f.attempts) } ∧
    (calculate_detailed_risk riskCalc d).weighted_components = some
      { attendance_weighted :=
          round3 (calculate_attendance_risk f.attendance * riskCalc.weights.attendance)
        score_trend_weighted :=
          round3 (calculate_score_trend_risk f.previous_avg f.current_avg *
            riskCalc.weights.score_trend)
        fee_weighted := round3 (calculate_fee_risk f.fees_due * riskCalc.weights.fees)
        attempts_weighted :=
          round3 (calculate_attempts_risk f.attempts * riskCalc.weights.attempts) } ∧
    (∀ x ∈ (calculate_detailed_risk riskCalc d).risk_factors,
      x.risk_contribution = calculate_attendance_risk f.attendance * riskCalc.weights.attendance ∨
      x.risk_contribution =
        calculate_score_trend_risk f.previous_avg f.current_avg * riskCalc.weights.score_trend ∨
      x.risk_contribution = calculate_fee_risk f.fees_due * riskCalc.weights.fees ∨
      x.risk_contribution = calculate_attempts_risk f.attempts * riskCalc.weights.attempts) ∧
    (∀ x ∈ (calculate_detailed_risk riskCalc d).top_reasons,
      x ∈ (calculate_detailed_risk riskCalc d).risk_factors) := by
  obtain ⟨recs, hg, heq⟩ := calculate_detailed_risk_ok riskCalc hf
  rw [heq]
  refine ⟨rfl, rfl, rfl, ?_, ?_⟩
  · intro x hx
    have hx' := (sortFactors_perm _).mem_iff.mp hx
    have hmem := List.mem_map_of_mem (fun y => y.risk_contribution) hx'
    rw [baseFactors_contributions] at hmem
    simp only [List.mem_append, mem_ite_singleton] at hmem
    tauto
  · intro x hx
    dsimp only at hx
    split at hx
    · exact List.take_subset 2 _ hx
    · exact hx

/-- C4 counterexample: at attendance 40 the single risk factor carries the
raw contribution 7/30, which is not a 3-decimal value, so not every
numeric in the result is rounded as the claim states. -/
theorem unrounded_risk_factor_contribution :
    ((calculate_detailed_risk riskCalc [("attendance_percent", PyVal.int 40)]).risk_factors.map
      (fun x => x.risk_contribution)) = [7/30] ∧
    round3 (7/30) ≠ 7/30 := by
  constructor
  · obtain ⟨recs, hg, heq⟩ := calculate_detailed_risk_ok riskCalc extract_d40
    rw [heq]
    dsimp only
    rw [show sortFactors (baseFactors riskCalc ⟨40, 0, 1, 0, 0⟩) =
        baseFactors riskCalc ⟨40, 0, 1, 0, 0⟩ from ?_]
    · rw [baseFactors_contributions]
      norm_num [calculate_attendance_risk, calculate_score_trend_risk, calculate_fee_risk,
        calculate_attempts_risk, riskCalc]
    · rw [show baseFactors riskCalc ⟨40, 0, 1, 0, 0⟩ =
          [{ factor := "Attendance", value := qStr 40 ++ "% (below 75%)",
             risk_contribution := calculate_attendance_risk 40 * riskCalc.weights.attendance,
             severity := "High" }] from ?_]
      · rfl
      · unfold baseFactors
        norm_num [calculate_attendance_risk, calculate_score_trend_risk, calculate_fee_risk,
          calculate_attempts_risk]
  · rw [round3_7_30]
    norm_num


/-- With attendance in [65,75) and every other factor below its Medium
severity cut, all recorded severities are Low, so no recommendation rule
fires at all. -/
lemma recommendations_empty_of_benign {d : StudentData} {f : Extracted}
    (hf : extractFields d = Except.ok f)
    (h65 : 65 ≤ f.attendance) (h75 : f.attendance < 75)
    (hdrop : f.previous_avg - f.current_avg ≤ 8)
    (hfees : f.fees_due ≤ 30) (hatt : f.attempts < 3) :
    (calculate_detailed_risk riskCalc d).recommendations = [] := by
  obtain ⟨recs, hg, heq⟩ := calculate_detailed_risk_ok riskCalc hf
  have hsev : ∀ x ∈ sortFactors (baseFactors riskCalc f), x.severity = "Low" := by
    intro x hx
    have hx' := (sortFactors_perm _).mem_iff.mp hx
    have hmem := List.mem_map_of_mem (fun y => y.severity) hx'
    rw [baseFactors_severities] at hmem
    simp only [List.mem_append, mem_ite_singleton] at hmem
    rcases hmem with ((⟨h, hs⟩ | ⟨h, hs⟩) | ⟨h, hs⟩) | ⟨h, hs⟩
    · rw [hs, if_neg (by linarith), if_neg (by linarith)]
    · rw [hs, if_neg (by linarith), if_neg (by linarith)]
    · rw [hs, if_neg (by omega), if_neg (by omega)]
    · rw [hs, if_neg (by omega), if_neg (by omega)]
  have hall := generate_recommendations_all_low (d := d) hsev
  rw [hg] at hall
  injection hall with hrecs
  rw [heq]
  dsimp only
  rw [hrecs]

/-- C6 amended: for attendance in [65,75) (attendance risk > 0) with all
other components below Medium severity, the attendance factor is tagged
Low, the monitor-and-remind rule never fires, and the recommendations
list is empty — the rule-table row claimed by the spec is unreachable
because only Medium/High factors generate recommendations. -/
theorem attendance_65_75_no_monitor_recommendation (d : StudentData) (f : Extracted)
    (hf : extractFields d = Except.ok f)
    (h65 : 65 ≤ f.attendance) (h75 : f.attendance < 75)
    (hdrop : f.previous_avg - f.current_avg ≤ 8)
    (hfees : f.fees_due ≤ 30) (hatt : f.attempts < 3) :
    (calculate_detailed_risk riskCalc d).recommendations = [] ∧
    "Monitor attendance closely and provide gentle reminders" ∉
      (calculate_detailed_risk riskCalc d).recommendations := by
  have hempty := recommendations_empty_of_benign hf h65 h75 hdrop hfees hatt
  rw [hempty]
  exact ⟨rfl, by simp⟩

/-- C6 counterexample: attendance 70 satisfies the claim's premises, yet
the recommendations list is empty and in particular does not contain the
monitor-and-remind sentence the claim requires. -/
theorem monitor_recommendation_missing_at_70 :
    (65 : ℚ) ≤ 70 ∧ (70 : ℚ) < 75 ∧ 0 < calculate_attendance_risk 70 ∧
    (calculate_detailed_risk riskCalc [("attendance_percent", PyVal.int 70)]).recommendations
      = [] ∧
    "Monitor attendance closely and provide gentle reminders" ∉
      (calculate_detailed_risk riskCalc
        [("attendance_percent", PyVal.int 70)]).recommendations := by
  have hf : extractFields [("attendance_percent", PyVal.int 70)] =
      Except.ok ⟨70, 0, 1, 0, 0⟩ := by
    simp +decide [extractFields, getField, lookupField, pyFloat, pyInt, bind, Except.bind,
      pure, Except.pure]
  have hempty := recommendations_empty_of_benign hf (by norm_num) (by norm_num) (by norm_num)
    (by norm_num) (by norm_num)
  rw [hempty]
  exact ⟨by norm_num, by norm_num, by norm_num [calculate_attendance_risk], rfl, by simp⟩

/-- C8: `risk_factors` is a permutation of the factors built per component
(one exactly when that component risk is > 0, witnessed by the name
membership equivalences), sorted descending by contribution with ties
keeping the build order (the filter at any fixed contribution value is
unchanged), and `top_reasons` is its 2-element front. -/
theorem risk_factors_sorted_stable_top_two (d : StudentData) (f : Extracted)
    (hf : extractFields d = Except.ok f) :
    ((calculate_detailed_risk riskCalc d).risk_factors).Perm (baseFactors riskCalc f) ∧
    ((calculate_detailed_risk riskCalc d).risk_factors).Pairwise
      (fun a b => b.risk_contribution ≤ a.risk_contribution) ∧
    (∀ q : ℚ, ((calculate_detailed_risk riskCalc d).risk_factors).filter
        (fun z => decide (z.risk_contribution = q)) =
      (baseFactors riskCalc f).filter (fun z => decide (z.risk_contribution = q))) ∧
    ("Attendance" ∈ ((calculate_detailed_risk riskCalc d).risk_factors).map
        (fun x => x.factor) ↔ calculate_attendance_risk f.attendance > 0) ∧
    ("Test Score Trend" ∈ ((calculate_detailed_risk riskCalc d).risk_factors).map
        (fun x => x.factor) ↔
      calculate_score_trend_risk f.previous_avg f.current_avg > 0) ∧
    ("Fee Payment" ∈ ((calculate_detailed_risk riskCalc d).risk_factors).map
        (fun x => x.factor) ↔ calculate_fee_risk f.fees_due > 0) ∧
    ("Subject Attempts" ∈ ((calculate_detailed_risk riskCalc d).risk_factors).map
        (fun x => x.factor) ↔ calculate_attempts_risk f.attempts > 0) ∧
    (calculate_detailed_risk riskCalc d).top_reasons =
      ((calculate_detailed_risk riskCalc d).risk_factors).take 2 ∧
    ((calculate_detailed_risk riskCalc d).top_reasons).length ≤ 2 ∧
    (∀ x ∈ (calculate_detailed_risk riskCalc d).top_reasons,
      x ∈ (calculate_detailed_risk riskCalc d).risk_factors) := by
  obtain ⟨recs, hg, heq⟩ := calculate_detailed_risk_ok riskCalc hf
  rw [heq]
  dsimp only
  have hperm := sortFactors_perm (baseFactors riskCalc f)
  have htop : (if (sortFactors (baseFactors riskCalc f)).length ≥ 2 then
      (sortFactors (baseFactors riskCalc f)).take 2
    else sortFactors (baseFactors riskCalc f)) =
      (sortFactors (baseFactors riskCalc f)).take 2 := by
    split
    · rfl
    case isFalse h => exact (List.take_of_length_le (by omega)).symm
  have hAS : ("Attendance" : String) ≠ "Test Score Trend" := by decide
  have hAF : ("Attendance" : String) ≠ "Fee Payment" := by decide
  have hAT : ("Attendance" : String) ≠ "Subject Attempts" := by decide
  have hSA : ("Test Score Trend" : String) ≠ "Attendance" := by decide
  have hSF : ("Test Score Trend" : String) ≠ "Fee Payment" := by decide
  have hST : ("Test Score Trend" : String) ≠ "Subject Attempts" := by decide
  have hFA : ("Fee Payment" : String) ≠ "Attendance" := by decide
  have hFS : ("Fee Payment" : String) ≠ "Test Score Trend" := by decide
  have hFT : ("Fee Payment" : String) ≠ "Subject Attempts" := by decide
  have hTA : ("Subject Attempts" : String) ≠ "Attendance" := by decide
  have hTS : ("Subject Attempts" : String) ≠ "Test Score Trend" := by decide
  have hTF : ("Subject Attempts" : String) ≠ "Fee Payment" := by decide
  refine ⟨hperm, sortFactors_pairwise _, sortFactors_filter _, ?_, ?_, ?_, ?_, htop, ?_, ?_⟩
  · rw [(hperm.map (fun x => x.factor)).mem_iff, baseFactors_names]
    simp [List.mem_append, mem_ite_singleton, hAS, hAF, hAT]
  · rw [(hperm.map (fun x => x.factor)).mem_iff, baseFactors_names]
    simp [List.mem_append, mem_ite_singleton, hSA, hSF, hST]
  · rw [(hperm.map (fun x => x.factor)).mem_iff, baseFactors_names]
    simp [List.mem_append, mem_ite_singleton, hFA, hFS, hFT]
  · rw [(hperm.map (fun x => x.factor)).mem_iff, baseFactors_names]
    simp [List.mem_append, mem_ite_singleton, hTA, hTS, hTF]
  · rw [htop, List.length_take]
    exact min_le_left _ _
  · intro x hx
    rw [htop] at hx
    exact List.take_subset _ _ hx


/-- C4 witness: the rounding relation instantiated at attendance 40. -/
theorem detailed_outputs_rounding_witness :
    (calculate_detailed_risk riskCalc [("attendance_percent", PyVal.int 40)]).risk_score =
      round3 (overallScore riskCalc ⟨40, 0, 1, 0, 0⟩) :=
  (detailed_outputs_rounding [("attendance_percent", PyVal.int 40)] ⟨40, 0, 1, 0, 0⟩
    extract_d40).1

/-- C6 witness: the amended statement instantiated at attendance 68. -/
theorem attendance_65_75_no_monitor_recommendation_witness :
    (calculate_detailed_risk riskCalc
      [("attendance_percent", PyVal.int 68)]).recommendations = [] :=
  (attendance_65_75_no_monitor_recommendation [("attendance_percent", PyVal.int 68)]
    ⟨68, 0, 1, 0, 0⟩
    (by simp +decide [extractFields, getField, lookupField, pyFloat, pyInt, bind, Except.bind,
      pure, Except.pure])
    (by norm_num) (by norm_num) (by norm_num) (by norm_num) (by norm_num)).1

/-- C8 witness: the ordering facts instantiated at the end-to-end example
record, where all four factors are present. -/
theorem risk_factors_sorted_stable_top_two_witness :
    ((calculate_detailed_risk riskCalc
      [("attendance_percent", PyVal.int 40), ("fees_due_days", PyVal.int 100),
       ("attempts_in_subject_X", PyVal.int 5), ("previous_3_tests_avg", PyVal.int 80),
       ("last_3_tests_avg", PyVal.int 55)]).top_reasons).length ≤ 2 := by
  have h := risk_factors_sorted_stable_top_two
    [("attendance_percent", PyVal.int 40), ("fees_due_days", PyVal.int 100),
     ("attempts_in_subject_X", PyVal.int 5), ("previous_3_tests_avg", PyVal.int 80),
     ("last_3_tests_avg", PyVal.int 55)]
    ⟨40, 100, 5, 80, 55⟩
    (by norm_num +decide [extractFields, getField, lookupField, pyFloat, pyInt, bind,
      Except.bind, pure, Except.pure])
  exact h.2.2.2.2.2.2.2.2.1

end RiskCalc
